import Mathlib

/-!
Verification of the Quran-mcp client lifecycle manager and tool handlers.

The definitions below are a shallow embedding of the TypeScript sources:
  * `src/quran/client.ts` — environment resolution, client factory,
    module-level singleton cache (`getQuranClient`, `clearClientCache`);
  * `src/quran/tools.ts` — the `getVerse` and `getAvailableTranslations`
    tool handlers;
  * `src/index.ts` — resolution of the `QURAN_ENV` selector string.

JavaScript conventions that matter for faithfulness are made explicit:
`x || y` on strings treats the empty string as falsy (`jsOrStr`), optional
fields become `Option`, thrown errors become `Except.error`, and object
identity of client instances is modelled by tagging each client built by
the factory with a fresh allocation number (`id`).
-/

/-- JavaScript `a || b` for an optional string `a`: `b` when `a` is absent
or empty (the empty string is falsy in JavaScript). -/
def jsOrStr (a : Option String) (b : String) : String :=
  match a with
  | none => b
  | some s => if s = "" then b else s

/-- JavaScript truthiness of an optional string value. -/
def jsTruthy (a : Option String) : Bool :=
  match a with
  | none => false
  | some s => s ≠ ""

/-- JavaScript truthiness normalisation of an optional string: `none` when
the value is absent or empty, otherwise the value itself. -/
def jsNonEmpty (a : Option String) : Option String :=
  match a with
  | none => none
  | some s => if s = "" then none else some s

/-- JavaScript `String.prototype.toLowerCase()`, modelled characterwise. -/
def jsToLowerCase (s : String) : String :=
  String.mk (s.data.map Char.toLower)

/-- JavaScript `String.prototype.toUpperCase()`, modelled characterwise. -/
def jsToUpperCase (s : String) : String :=
  String.mk (s.data.map Char.toUpper)

/-- The `QuranEnvironment` enum of `src/quran/client.ts`. -/
inductive QuranEnvironment where
  | production
  | preProduction
deriving DecidableEq, Repr

/-- The string value of each `QuranEnvironment` enum member
(`"production"`, `"pre-production"`). -/
def QuranEnvironment.toEnvString : QuranEnvironment → String
  | .production => "production"
  | .preProduction => "pre-production"

/-- The `Language` enum of the `@quranjs/api` SDK, kept abstract as its
string tag; only `Language.ENGLISH` is used by the repository. -/
structure SdkLanguage where
  tag : String
deriving DecidableEq, Repr

/-- The `Language.ENGLISH` member of the SDK enum. -/
def SdkLanguage.ENGLISH : SdkLanguage := ⟨"english"⟩

/-- The `QuranConfig` interface of `src/quran/client.ts`. -/
structure QuranConfig where
  clientId : String
  clientSecret : String
  defaultLanguage : Option SdkLanguage
  environment : Option QuranEnvironment
deriving DecidableEq, Repr

/-- One entry of the `ENVIRONMENT_CONFIG` table. -/
structure EnvEndpoints where
  contentBaseUrl : String
  authBaseUrl : String
deriving DecidableEq, Repr

/-- The `ENVIRONMENT_CONFIG` table of `src/quran/client.ts`. -/
def ENVIRONMENT_CONFIG : QuranEnvironment → EnvEndpoints
  | .production =>
      { contentBaseUrl := "https://apis.quran.foundation"
        authBaseUrl := "https://oauth2.quran.foundation" }
  | .preProduction =>
      { contentBaseUrl := "https://apis-prelive.quran.foundation"
        authBaseUrl := "https://prelive-oauth2.quran.foundation" }

/-- The value `config.environment || QuranEnvironment.PRODUCTION`: the environment a
configuration actually selects (both enum string values are truthy, so the
JavaScript `||` is exactly a default for the absent case). -/
def effectiveEnvironment (config : QuranConfig) : QuranEnvironment :=
  config.environment.getD QuranEnvironment.production

/-- Resolution of the `QURAN_ENV` selector string in `src/index.ts`:
`quranEnvStr === "pre-production" ? PRE_PRODUCTION : PRODUCTION` after
lower-casing; an absent or unrecognized value yields `PRODUCTION`. -/
def resolveQuranEnv (quranEnv : Option String) : QuranEnvironment :=
  if quranEnv.map jsToLowerCase = some "pre-production" then
    QuranEnvironment.preProduction
  else
    QuranEnvironment.production

/-- A `QuranClient` instance as built by `createQuranClient`. The `id`
field tags each instance with its allocation number so that JavaScript
object identity (two calls to `new QuranClient(...)` yield distinct
objects) is observable in the model. -/
structure QuranClient where
  id : Nat
  clientId : String
  clientSecret : String
  contentBaseUrl : String
  authBaseUrl : String
  language : SdkLanguage
deriving DecidableEq, Repr

/-- The function `createQuranClient` of `src/quran/client.ts`: resolves the endpoints
for `config.environment || PRODUCTION` and builds a fresh client. `freshId`
is the allocation number of the new instance. -/
def createQuranClient (config : QuranConfig) (freshId : Nat) : QuranClient :=
  let environment := effectiveEnvironment config
  let envConfig := ENVIRONMENT_CONFIG environment
  { id := freshId
    clientId := config.clientId
    clientSecret := config.clientSecret
    contentBaseUrl := envConfig.contentBaseUrl
    authBaseUrl := envConfig.authBaseUrl
    language := config.defaultLanguage.getD SdkLanguage.ENGLISH }

/-- The function `getConfigKey` of `src/quran/client.ts`:
`` `${config.clientId}:${config.environment || QuranEnvironment.PRODUCTION}` ``. -/
def getConfigKey (config : QuranConfig) : String :=
  config.clientId ++ ":" ++ (effectiveEnvironment config).toEnvString

/-- The module-level mutable state of `src/quran/client.ts`: the two cache
cells `cachedClient` and `cachedConfig`, plus the allocation counter for
fresh client instances and the log of clients that were instructed to drop
their cached OAuth2 token (`clearCachedToken` calls). -/
structure CacheState where
  cachedClient : Option QuranClient
  cachedConfig : Option String
  nextId : Nat
  droppedTokenIds : List Nat
deriving DecidableEq, Repr

/-- The state at module load: both cache cells are `null`. -/
def initialCacheState : CacheState :=
  { cachedClient := none, cachedConfig := none, nextId := 0, droppedTokenIds := [] }

/-- The function `getQuranClient` of `src/quran/client.ts`: returns the cached client
when one exists and the stored key equals the computed key, otherwise calls
`createQuranClient` and replaces both cells. -/
def getQuranClient (config : QuranConfig) (st : CacheState) :
    QuranClient × CacheState :=
  let configKey := getConfigKey config
  match st.cachedClient with
  | some c =>
      if st.cachedConfig = some configKey then
        (c, st)
      else
        let c2 := createQuranClient config st.nextId
        (c2, { st with cachedClient := some c2, cachedConfig := some configKey,
                       nextId := st.nextId + 1 })
  | none =>
      let c2 := createQuranClient config st.nextId
      (c2, { st with cachedClient := some c2, cachedConfig := some configKey,
                     nextId := st.nextId + 1 })

/-- The function `clearClientCache` of `src/quran/client.ts`: when a client is cached it
is told to drop its cached token (`clearCachedToken`) and the client cell
is nulled; the config cell is nulled unconditionally. -/
def clearClientCache (st : CacheState) : CacheState :=
  match st.cachedClient with
  | some c =>
      { st with droppedTokenIds := st.droppedTokenIds ++ [c.id],
                cachedClient := none, cachedConfig := none }
  | none => { st with cachedConfig := none }

/-- One call against the module-level cache. -/
inductive CacheOp where
  | get (config : QuranConfig)
  | clear
deriving Repr

/-- Applying one call to the cache state. -/
def applyCacheOp (st : CacheState) : CacheOp → CacheState
  | .get config => (getQuranClient config st).2
  | .clear => clearClientCache st

/-- The cache state after a sequence of calls starting at module load. -/
def runCacheOps (ops : List CacheOp) : CacheState :=
  ops.foldl applyCacheOp initialCacheState

/-- A thrown upstream error as the handlers inspect it (`error.message`,
`error.status`, both duck-typed and possibly absent). -/
structure ApiError where
  message : Option String
  status : Option String
deriving DecidableEq, Repr

/-- One translation attached to a fetched verse. -/
structure VerseTranslation where
  resourceName : Option String
  languageName : Option String
  text : String
deriving DecidableEq, Repr

/-- One tafsir (commentary) attached to a fetched verse. -/
structure VerseTafsir where
  resourceName : Option String
  text : String
deriving DecidableEq, Repr

/-- One word of a fetched verse. -/
structure VerseWord where
  textUthmani : Option String
  textImlaei : Option String
deriving DecidableEq, Repr

/-- The verse record returned by `client.verses.findByKey`, restricted to
the fields the handler reads; absent arrays are modelled as `[]` (the
handler only ever tests `x && x.length > 0`). -/
structure VerseData where
  verseKey : String
  textUthmani : String
  chapterId : Nat
  verseNumber : Nat
  pageNumber : Nat
  juzNumber : Nat
  translations : List VerseTranslation
  tafsirs : List VerseTafsir
  words : List VerseWord
deriving DecidableEq, Repr

/-- The validated parameters of the `getVerse` tool (`getVerseSchema`):
the two booleans default to `false` under the schema, so after validation
they are always present. -/
structure GetVerseParams where
  verseKey : String
  translations : Option (List Nat)
  includeWords : Bool
  includeTafsir : Bool
  tafsirIds : Option (List Nat)
deriving DecidableEq, Repr

/-- The options object the handler passes to `client.verses.findByKey`. -/
structure VerseOptions where
  translations : Option (List Nat)
  words : Bool
  tafsirs : Option (List Nat)
  fieldsTextUthmani : Bool
deriving DecidableEq, Repr

/-- The options `getVerse` builds for `findByKey`:
`tafsirs: includeTafsir && tafsirIds ? tafsirIds : undefined` (when
`includeTafsir` is false the conjunction is falsy, so `undefined` is
passed; when it is true and `tafsirIds` is absent the conjunction is again
falsy; an array — even an empty one — is truthy). -/
def verseRequestOptions (params : GetVerseParams) : VerseOptions :=
  { translations := params.translations
    words := params.includeWords
    tafsirs := if params.includeTafsir then params.tafsirIds else none
    fieldsTextUthmani := true }

/-- Concatenation of the pieces a handler appends one by one to its
`response` accumulator string. -/
def concatStrings : List String → String
  | [] => ""
  | s :: rest => s ++ concatStrings rest

/-- The uniform tool response envelope: a list of text content blocks plus
the error flag (a successful handler returns no `isError` field, which the
protocol reads as `false`). -/
structure ToolResponse where
  content : List String
  isError : Bool
deriving DecidableEq, Repr

/-- The Translations section of the verse response, emitted when
`verse.translations && verse.translations.length > 0`. -/
def verseTranslationSection (trs : List VerseTranslation) : String :=
  if trs.length > 0 then
    "**Translations:**\n" ++
    concatStrings (trs.map (fun tr =>
      "\n*" ++ jsOrStr tr.resourceName "Translation" ++ "* (" ++
      jsOrStr tr.languageName "N/A" ++ "):\n" ++ tr.text ++ "\n")) ++ "\n"
  else ""

/-- The Tafsir section of the verse response, emitted when
`verse.tafsirs && verse.tafsirs.length > 0`. -/
def verseTafsirSection (tfs : List VerseTafsir) : String :=
  if tfs.length > 0 then
    "**Tafsir (Commentary):**\n" ++
    concatStrings (tfs.map (fun tf =>
      "\n*" ++ jsOrStr tf.resourceName "Tafsir" ++ "*:\n" ++ tf.text ++ "\n")) ++ "\n"
  else ""

/-- The word-by-word section, emitted when
`includeWords && verse.words && verse.words.length > 0`. -/
def verseWordsSection (includeWords : Bool) (ws : List VerseWord) : String :=
  if includeWords = true ∧ ws.length > 0 then
    "**Word-by-Word Breakdown:**\n" ++
    concatStrings (ws.enum.map (fun p =>
      toString (p.1 + 1) ++ ". " ++
      jsOrStr p.2.textUthmani (jsOrStr p.2.textImlaei "N/A") ++ "\n"))
  else ""

/-- The success text of the `getVerse` handler. -/
def formatVerseResponse (includeWords : Bool) (verse : VerseData) : String :=
  "📖 **Verse " ++ verse.verseKey ++ "**\n\n" ++
  "**Arabic (Uthmani):**\n" ++ verse.textUthmani ++ "\n\n" ++
  "**Metadata:**\n" ++
  "- Chapter: " ++ toString verse.chapterId ++ "\n" ++
  "- Verse Number: " ++ toString verse.verseNumber ++ "\n" ++
  "- Page: " ++ toString verse.pageNumber ++ "\n" ++
  "- Juz: " ++ toString verse.juzNumber ++ "\n\n" ++
  verseTranslationSection verse.translations ++
  verseTafsirSection verse.tafsirs ++
  verseWordsSection includeWords verse.words

/-- The error text of the `getVerse` handler:
error type is `error.status || "error"`, message is
`error.message || "Unknown error occurred"`. -/
def verseErrorText (verseKey : String) (e : ApiError) : String :=
  "❌ **Error fetching verse " ++ verseKey ++ "**\n\nError Type: " ++
  jsOrStr e.status "error" ++ "\nMessage: " ++
  jsOrStr e.message "Unknown error occurred" ++
  "\n\nPlease check the verse key format (should be \x27chapter:verse\x27, e.g., \x272:255\x27) and try again."

/-- The `getVerse` tool handler of `src/quran/tools.ts`. `findByKey` is
the client's verse-lookup operation (`client.verses.findByKey`), which
either yields a verse or throws; the handler catches every thrown error
and converts it into an error envelope. -/
def getVerse (findByKey : String → VerseOptions → Except ApiError VerseData)
    (params : GetVerseParams) : ToolResponse :=
  match findByKey params.verseKey (verseRequestOptions params) with
  | .ok verse =>
      { content := [formatVerseResponse params.includeWords verse], isError := false }
  | .error e =>
      { content := [verseErrorText params.verseKey e], isError := true }

/-- One entry of the translation catalog returned by
`client.resources.findAllTranslations`. -/
structure TranslationResource where
  id : Nat
  name : String
  authorName : Option String
  languageName : Option String
deriving DecidableEq, Repr

/-- The validated parameters of the `getAvailableTranslations` tool. -/
structure GetAvailableTranslationsParams where
  language : Option String
deriving DecidableEq, Repr

/-- JavaScript `s.charAt(0).toUpperCase() + s.slice(1)`. -/
def capitalizeFirst (s : String) : String :=
  match s.data with
  | [] => ""
  | c :: cs => String.mk (c.toUpper :: cs)

/-- The local language filter of `getAvailableTranslations`:
`t.languageName?.toLowerCase() === language.toLowerCase()` (an absent
language name compares unequal to any string). -/
def translationLanguageMatches (language : String) (t : TranslationResource) : Bool :=
  decide (t.languageName.map jsToLowerCase = some (jsToLowerCase language))

/-- The locally filtered catalog (`allTranslations.filter(...)`). -/
def filterByLanguage (ts : List TranslationResource) (language : String) :
    List TranslationResource :=
  ts.filter (translationLanguageMatches language)

/-- The grouping key of one catalog entry: `t.languageName || "unknown"`. -/
def translationGroupKey (t : TranslationResource) : String :=
  jsOrStr t.languageName "unknown"

/-- First-occurrence deduplication, the key order of a JavaScript object
built by repeated insertion (`Object.keys`). -/
def dedupFirst : List String → List String
  | [] => []
  | k :: ks => k :: (dedupFirst ks).filter (fun x => decide ¬ (x = k))

/-- JavaScript `Array.prototype.sort()` with the default comparator on
strings: ascending lexicographic order. -/
def sortKeys (l : List String) : List String :=
  List.insertionSort (fun a b => a ≤ b) l

/-- The sorted group keys of the grouped catalog display
(`Object.keys(byLanguage).sort()`). -/
def groupKeys (ts : List TranslationResource) : List String :=
  sortKeys (dedupFirst (ts.map translationGroupKey))

/-- The members of one language group (`byLanguage[lang]`), in the order
the entries were pushed. -/
def groupMembers (ts : List TranslationResource) (k : String) :
    List TranslationResource :=
  ts.filter (fun t => decide (translationGroupKey t = k))

/-- One line of a grouped listing: author appended only when
`translation.author` is truthy. -/
def groupedEntryLine (t : TranslationResource) : String :=
  "  • ID: " ++ toString t.id ++ " - " ++ t.name ++
  (if jsTruthy t.authorName then " by " ++ t.authorName.getD "" else "") ++ "\n"

/-- One group section of the grouped catalog display. -/
def groupSection (ts : List TranslationResource) (k : String) : String :=
  "**" ++ capitalizeFirst k ++ "** (" ++
  toString (groupMembers ts k).length ++ " translations):\n" ++
  concatStrings ((groupMembers ts k).map groupedEntryLine) ++ "\n"

/-- The grouped (no-filter) catalog listing. -/
def renderGrouped (ts : List TranslationResource) : String :=
  concatStrings ((groupKeys ts).map (groupSection ts))

/-- One line of the flat (filtered) listing: author appended only when
`translation.authorName` is truthy. -/
def flatEntryLine (t : TranslationResource) : String :=
  "• **ID: " ++ toString t.id ++ "** - " ++ t.name ++
  (if jsTruthy t.authorName then " by " ++ t.authorName.getD "" else "") ++ "\n"

/-- The flat (filtered) catalog listing. -/
def renderFlat (ts : List TranslationResource) : String :=
  concatStrings (ts.map flatEntryLine) ++ "\n"

/-- The usage example appended after a non-empty listing; `exampleId` is
the id of the first listed entry. -/
def usageExample (exampleId : Nat) : String :=
  "\n**Usage Example:**\nTo fetch a verse with translation ID " ++
  toString exampleId ++ ", use:\n```\ngetVerse(\x7b verseKey: \"2:255\", translations: [" ++
  toString exampleId ++ "] \x7d)\n```\n"

/-- The header line of the catalog response. -/
def translationsHeader (language : Option String) (count : Nat) : String :=
  match language with
  | some l =>
      "📚 **Available " ++ capitalizeFirst l ++ " Translations** (" ++
      toString count ++ " found)\n\n"
  | none =>
      "📚 **All Available Translations** (" ++ toString count ++ " total)\n\n"

/-- The zero-matches text of the catalog response. -/
def noMatchesText (language : Option String) : String :=
  "No translations found" ++
  (match language with
   | some l => " for language: " ++ l
   | none => "") ++
  ".\n\nTry using common languages like: english, urdu, arabic, spanish, french, turkish, bengali, indonesian, russian, persian"

/-- The error text of the `getAvailableTranslations` handler. -/
def translationsErrorText (e : ApiError) : String :=
  "❌ **Error fetching translations**\n\nError Type: " ++
  jsOrStr e.status "error" ++ "\nMessage: " ++
  jsOrStr e.message "Unknown error occurred" ++ "\n\nPlease try again."

/-- The `getAvailableTranslations` tool handler of `src/quran/tools.ts`.
`findAllTranslations` is the outcome of the client's unfiltered
`client.resources.findAllTranslations()` call; every use of the filter
value goes through JavaScript truthiness (`if (language)`), so an empty
filter string behaves like no filter. -/
def getAvailableTranslations (findAllTranslations : Except ApiError (List TranslationResource))
    (params : GetAvailableTranslationsParams) : ToolResponse :=
  match findAllTranslations with
  | .error e => { content := [translationsErrorText e], isError := true }
  | .ok allTranslations =>
      let language := jsNonEmpty params.language
      let filteredTranslations :=
        match language with
        | some l => filterByLanguage allTranslations l
        | none => allTranslations
      let body :=
        match filteredTranslations with
        | [] => noMatchesText language
        | t0 :: _ =>
            (match language with
             | none => renderGrouped filteredTranslations
             | some _ => renderFlat filteredTranslations) ++ usageExample t0.id
      { content := [translationsHeader language filteredTranslations.length ++ body]
        isError := false }

/-! ### String and list helper lemmas -/

/-- Substring relation between strings, as infix of the character lists. -/
def substrOf (needle haystack : String) : Prop :=
  needle.data <:+: haystack.data

instance (n h : String) : Decidable (substrOf n h) := by
  unfold substrOf; infer_instance

theorem substrOf_append_left (s a b : String) (h : substrOf s a) :
    substrOf s (a ++ b) := by
  obtain ⟨p, q, hpq⟩ := h
  exact ⟨p, q ++ b.data, by rw [String.data_append, ← hpq]; simp⟩

theorem substrOf_append_right (s a b : String) (h : substrOf s b) :
    substrOf s (a ++ b) := by
  obtain ⟨p, q, hpq⟩ := h
  exact ⟨a.data ++ p, q, by rw [String.data_append, ← hpq]; simp⟩

theorem substrOf_self_left (a b : String) : substrOf a (a ++ b) :=
  substrOf_append_left a a b ⟨[], [], by simp⟩

theorem substrOf_self_right (a b : String) : substrOf b (a ++ b) :=
  substrOf_append_right b a b ⟨[], [], by simp⟩

theorem substrOf_concat_of_mem {α : Type} (f : α → String) (x : α)
    (l : List α) (h : x ∈ l) :
    substrOf (f x) (concatStrings (l.map f)) := by
  induction l with
  | nil => cases h
  | cons y ys ih =>
      rcases List.mem_cons.mp h with rfl | hmem
      · exact substrOf_self_left (f x) (concatStrings (ys.map f))
      · exact substrOf_append_right _ _ _ (ih hmem)

/-- Splitting at the first occurrence of a separator: an element absent
from both left parts pins the split point down. -/
theorem first_sep_split {α : Type} (p : α) :
    ∀ (l1 l2 r1 r2 : List α), p ∉ l1 → p ∉ l2 →
      l1 ++ p :: r1 = l2 ++ p :: r2 → l1 = l2 ∧ r1 = r2 := by
  intro l1
  induction l1 with
  | nil =>
      intro l2 r1 r2 _ h2 h
      cases l2 with
      | nil => simpa using h
      | cons c cs =>
          simp only [List.nil_append, List.cons_append, List.cons.injEq] at h
          exact absurd (h.1 ▸ List.mem_cons_self c cs) h2
  | cons c cs ih =>
      intro l2 r1 r2 h1 h2 h
      cases l2 with
      | nil =>
          simp only [List.nil_append, List.cons_append, List.cons.injEq] at h
          exact absurd (h.1 ▸ List.mem_cons_self c cs) h1
      | cons d ds =>
          simp only [List.cons_append, List.cons.injEq] at h
          obtain ⟨rfl, h⟩ := h
          have := ih ds r1 r2 (fun hm => h1 (List.mem_cons_of_mem _ hm))
            (fun hm => h2 (List.mem_cons_of_mem _ hm)) h
          exact ⟨by rw [this.1], this.2⟩

/-- Splitting at the last occurrence of a separator: an element absent
from both right parts pins the split point down. -/
theorem last_sep_split {α : Type} (p : α) (l1 l2 r1 r2 : List α)
    (h1 : p ∉ r1) (h2 : p ∉ r2)
    (h : l1 ++ p :: r1 = l2 ++ p :: r2) : l1 = l2 ∧ r1 = r2 := by
  have hr := congrArg List.reverse h
  simp only [List.reverse_append, List.reverse_cons, List.append_assoc,
    List.singleton_append] at hr
  have := first_sep_split p r1.reverse r2.reverse l1.reverse l2.reverse
    (by simpa using h1) (by simpa using h2) hr
  exact ⟨List.reverse_injective this.2, List.reverse_injective this.1⟩

/-! ### Fingerprint (cache key) facts -/

theorem toEnvString_no_colon (e : QuranEnvironment) :
    ':' ∉ e.toEnvString.data := by
  cases e <;> decide

theorem toEnvString_injective (e1 e2 : QuranEnvironment)
    (h : e1.toEnvString = e2.toEnvString) : e1 = e2 := by
  cases e1 <;> cases e2 <;> first | rfl | (exact absurd h (by decide))

theorem string_data_injective {a b : String} (h : a.data = b.data) : a = b := by
  cases a; cases b; exact congrArg String.mk h

theorem getConfigKey_data (c : QuranConfig) :
    (getConfigKey c).data =
      c.clientId.data ++ ':' :: (effectiveEnvironment c).toEnvString.data := by
  show (c.clientId ++ ":" ++ (effectiveEnvironment c).toEnvString).data = _
  rw [String.data_append, String.data_append]
  have hc : (":" : String).data = [':'] := rfl
  rw [hc, List.append_assoc, List.singleton_append]

/-- The cache fingerprint determines, and is determined by, the credential
id together with the effective environment: the environment tag holds no
`:` and is read off behind the last `:` of the key. -/
theorem getConfigKey_eq_iff (c1 c2 : QuranConfig) :
    getConfigKey c1 = getConfigKey c2 ↔
      c1.clientId = c2.clientId ∧
        effectiveEnvironment c1 = effectiveEnvironment c2 := by
  constructor
  · intro h
    have hd := congrArg String.data h
    rw [getConfigKey_data, getConfigKey_data] at hd
    have := last_sep_split ':' c1.clientId.data c2.clientId.data
      (effectiveEnvironment c1).toEnvString.data
      (effectiveEnvironment c2).toEnvString.data
      (toEnvString_no_colon _) (toEnvString_no_colon _) hd
    exact ⟨string_data_injective this.1,
      toEnvString_injective _ _ (string_data_injective this.2)⟩
  · intro ⟨h1, h2⟩
    show c1.clientId ++ ":" ++ (effectiveEnvironment c1).toEnvString
        = c2.clientId ++ ":" ++ (effectiveEnvironment c2).toEnvString
    rw [h1, h2]

/-! ### Cache state lemmas -/

theorem getQuranClient_state (config : QuranConfig) (st : CacheState) :
    ((getQuranClient config st).2).cachedClient = some (getQuranClient config st).1 ∧
      ((getQuranClient config st).2).cachedConfig = some (getConfigKey config) := by
  cases hc : st.cachedClient with
  | none => simp [getQuranClient, hc]
  | some c =>
      by_cases hk : st.cachedConfig = some (getConfigKey config)
      · simp [getQuranClient, hc, hk]
      · simp [getQuranClient, hc, hk]

theorem getQuranClient_hit (config : QuranConfig) (st : CacheState)
    (c : QuranClient) (hc : st.cachedClient = some c)
    (hk : st.cachedConfig = some (getConfigKey config)) :
    getQuranClient config st = (c, st) := by
  simp [getQuranClient, hc, hk]

theorem getQuranClient_miss (config : QuranConfig) (st : CacheState)
    (h : st.cachedClient = none ∨ st.cachedConfig ≠ some (getConfigKey config)) :
    (getQuranClient config st).1 = createQuranClient config st.nextId ∧
      ((getQuranClient config st).2).nextId = st.nextId + 1 := by
  cases hc : st.cachedClient with
  | none => simp [getQuranClient, hc]
  | some c =>
      have hk : st.cachedConfig ≠ some (getConfigKey config) := by
        rcases h with h | h
        · rw [hc] at h; cases h
        · exact h
      simp [getQuranClient, hc, hk]

/-- Well-formedness of a cache state: every cached client was allocated
below the allocation counter. -/
def CacheWF (st : CacheState) : Prop :=
  ∀ c : QuranClient, st.cachedClient = some c → c.id < st.nextId

theorem cacheWF_initial : CacheWF initialCacheState := by
  intro c h
  cases h

theorem cacheWF_get (config : QuranConfig) (st : CacheState) (h : CacheWF st) :
    CacheWF (getQuranClient config st).2 := by
  intro c hc
  cases hcc : st.cachedClient with
  | none =>
      simp [getQuranClient, hcc] at hc
      simp [getQuranClient, hcc, ← hc, createQuranClient]
  | some c0 =>
      by_cases hk : st.cachedConfig = some (getConfigKey config)
      · simp [getQuranClient, hcc, hk] at hc ⊢
        exact h c (by rw [hcc, hc])
      · simp [getQuranClient, hcc, hk] at hc ⊢
        simp [← hc, createQuranClient]

theorem cacheWF_clear (st : CacheState) (_h : CacheWF st) :
    CacheWF (clearClientCache st) := by
  intro c hc
  cases hcc : st.cachedClient with
  | none => simp [clearClientCache, hcc] at hc
  | some c0 => simp [clearClientCache, hcc] at hc

theorem cacheWF_apply (st : CacheState) (op : CacheOp) (h : CacheWF st) :
    CacheWF (applyCacheOp st op) := by
  cases op with
  | get config => exact cacheWF_get config st h
  | clear => exact cacheWF_clear st h

theorem cacheWF_foldl (ops : List CacheOp) :
    ∀ st : CacheState, CacheWF st → CacheWF (ops.foldl applyCacheOp st) := by
  induction ops with
  | nil => intro st h; exact h
  | cons op rest ih =>
      intro st h
      exact ih (applyCacheOp st op) (cacheWF_apply st op h)

theorem cacheWF_run (ops : List CacheOp) : CacheWF (runCacheOps ops) :=
  cacheWF_foldl ops initialCacheState cacheWF_initial

/-- Joint emptiness of the two cache cells. -/
def CacheCellsAligned (st : CacheState) : Prop :=
  st.cachedClient = none ↔ st.cachedConfig = none

theorem cacheAligned_initial : CacheCellsAligned initialCacheState :=
  Iff.intro (fun _ => rfl) (fun _ => rfl)

theorem cacheAligned_get (config : QuranConfig) (st : CacheState) :
    CacheCellsAligned (getQuranClient config st).2 := by
  have h := getQuranClient_state config st
  constructor
  · intro hn; rw [h.1] at hn; cases hn
  · intro hn; rw [h.2] at hn; cases hn

theorem cacheAligned_clear (st : CacheState) :
    CacheCellsAligned (clearClientCache st) := by
  unfold clearClientCache
  cases st.cachedClient with
  | none => exact Iff.intro (fun _ => rfl) (fun _ => rfl)
  | some c => exact Iff.intro (fun _ => rfl) (fun _ => rfl)

theorem cacheAligned_apply (st : CacheState) (op : CacheOp) :
    CacheCellsAligned (applyCacheOp st op) := by
  cases op with
  | get config => exact cacheAligned_get config st
  | clear => exact cacheAligned_clear st

theorem cacheAligned_foldl (ops : List CacheOp) :
    ∀ st : CacheState, CacheCellsAligned st →
      CacheCellsAligned (ops.foldl applyCacheOp st) := by
  induction ops with
  | nil => intro st h; exact h
  | cons op rest ih =>
      intro st _
      exact ih (applyCacheOp st op) (cacheAligned_apply st op)

/-! ### Claim theorems -/

/-- C2: environment-to-endpoint resolution is total and never fails: both
defined environments map to fixed non-empty endpoint pairs, and an
unrecognized or absent environment selector resolves, without error, to
the same endpoint pair as `PRODUCTION` (an absent `environment` field in a
configuration likewise yields the `PRODUCTION` endpoints). -/
theorem environment_resolution_total (s : Option String) (c : QuranConfig) (i : Nat) :
    ((ENVIRONMENT_CONFIG QuranEnvironment.production).contentBaseUrl ≠ "" ∧
      (ENVIRONMENT_CONFIG QuranEnvironment.production).authBaseUrl ≠ "" ∧
      (ENVIRONMENT_CONFIG QuranEnvironment.preProduction).contentBaseUrl ≠ "" ∧
      (ENVIRONMENT_CONFIG QuranEnvironment.preProduction).authBaseUrl ≠ "") ∧
    ((ENVIRONMENT_CONFIG (resolveQuranEnv s)).contentBaseUrl ≠ "" ∧
      (ENVIRONMENT_CONFIG (resolveQuranEnv s)).authBaseUrl ≠ "") ∧
    (resolveQuranEnv none = QuranEnvironment.production) ∧
    (s.map jsToLowerCase ≠ some "pre-production" →
      ENVIRONMENT_CONFIG (resolveQuranEnv s) =
        ENVIRONMENT_CONFIG QuranEnvironment.production) ∧
    (c.environment = none →
      (createQuranClient c i).contentBaseUrl =
          (ENVIRONMENT_CONFIG QuranEnvironment.production).contentBaseUrl ∧
        (createQuranClient c i).authBaseUrl =
          (ENVIRONMENT_CONFIG QuranEnvironment.production).authBaseUrl) := by
  refine ⟨by decide, ?_, ?_, ?_, ?_⟩
  · unfold resolveQuranEnv
    by_cases h : s.map jsToLowerCase = some "pre-production"
    · simp [h]; decide
    · simp [h]; decide
  · rfl
  · intro h
    unfold resolveQuranEnv
    simp [h]
  · intro h
    simp [createQuranClient, effectiveEnvironment, h]

/-- C2 witness: an unrecognized selector string and a configuration with
an absent environment both resolve to the production endpoints. -/
theorem environment_resolution_total_witness :
    ENVIRONMENT_CONFIG (resolveQuranEnv (some "staging")) =
        ENVIRONMENT_CONFIG QuranEnvironment.production ∧
      (createQuranClient ⟨"client-a", "secret-a", none, none⟩ 0).contentBaseUrl =
        (ENVIRONMENT_CONFIG QuranEnvironment.production).contentBaseUrl :=
  ⟨(environment_resolution_total (some "staging") ⟨"client-a", "secret-a", none, none⟩ 0).2.2.2.1
      (by decide),
    ((environment_resolution_total (some "staging") ⟨"client-a", "secret-a", none, none⟩ 0).2.2.2.2
      rfl).1⟩

/-- C4: two configurations have the same cache fingerprint iff their
`clientId`s are equal and their effective environments (absent defaulting
to `PRODUCTION`) are equal; `clientSecret` and `defaultLanguage` never
affect the fingerprint. -/
theorem configKey_characterisation (c1 c2 : QuranConfig) :
    (getConfigKey c1 = getConfigKey c2 ↔
      c1.clientId = c2.clientId ∧
        effectiveEnvironment c1 = effectiveEnvironment c2) ∧
    (∀ (s : String) (l : Option SdkLanguage),
      getConfigKey { c1 with clientSecret := s, defaultLanguage := l } =
        getConfigKey c1) := by
  refine ⟨getConfigKey_eq_iff c1 c2, ?_⟩
  intro s l
  rfl

/-- C4 witness: configurations agreeing on id and effective environment
(one via the default) share a fingerprint even with different secrets. -/
theorem configKey_characterisation_witness :
    getConfigKey ⟨"client-a", "secret-1", none, none⟩ =
      getConfigKey ⟨"client-a", "secret-2", some ⟨"arabic"⟩, some QuranEnvironment.production⟩ :=
  (configKey_characterisation ⟨"client-a", "secret-1", none, none⟩
    ⟨"client-a", "secret-2", some ⟨"arabic"⟩, some QuranEnvironment.production⟩).1.mpr
    (by decide)

/-- C10: the two module-level cache cells are jointly set or jointly
empty after any sequence of `getQuranClient` and `clearClientCache` calls
starting from the initial state. -/
theorem cache_cells_jointly_null (ops : List CacheOp) :
    (runCacheOps ops).cachedClient = none ↔ (runCacheOps ops).cachedConfig = none :=
  cacheAligned_foldl ops initialCacheState cacheAligned_initial

/-- C10 witness: both cells are empty after a get followed by a clear. -/
theorem cache_cells_jointly_null_witness :
    (runCacheOps [CacheOp.get ⟨"client-a", "secret-a", none, none⟩, CacheOp.clear]).cachedClient
      = none :=
  (cache_cells_jointly_null [CacheOp.get ⟨"client-a", "secret-a", none, none⟩, CacheOp.clear]).mpr
    rfl

/-- C1 (amended): starting from any reachable cache state, two successive
`getQuranClient` calls whose configurations agree on `clientId` and on the
effective environment return the identical client instance with no state
change (no new factory call, no side effect beyond the first call); two
calls whose configurations differ in `clientId` or in effective
environment return distinct instances. -/
theorem client_cache_idempotent_and_distinct (ops : List CacheOp)
    (c1 c2 : QuranConfig) :
    (c1.clientId = c2.clientId ∧ effectiveEnvironment c1 = effectiveEnvironment c2 →
      getQuranClient c2 (getQuranClient c1 (runCacheOps ops)).2 =
        ((getQuranClient c1 (runCacheOps ops)).1,
          (getQuranClient c1 (runCacheOps ops)).2)) ∧
    ((c1.clientId ≠ c2.clientId ∨ effectiveEnvironment c1 ≠ effectiveEnvironment c2) →
      (getQuranClient c2 (getQuranClient c1 (runCacheOps ops)).2).1 ≠
        (getQuranClient c1 (runCacheOps ops)).1) := by
  have hstate := getQuranClient_state c1 (runCacheOps ops)
  constructor
  · intro ⟨h1, h2⟩
    have hkey : getConfigKey c2 = getConfigKey c1 :=
      (getConfigKey_eq_iff c2 c1).mpr ⟨h1.symm, h2.symm⟩
    exact getQuranClient_hit c2 _ _ hstate.1 (hkey ▸ hstate.2)
  · intro h
    have hkey : getConfigKey c1 ≠ getConfigKey c2 := by
      intro he
      rcases (getConfigKey_eq_iff c1 c2).mp he with ⟨he1, he2⟩
      rcases h with h | h
      · exact h he1
      · exact h he2
    have hwf : CacheWF (getQuranClient c1 (runCacheOps ops)).2 :=
      cacheWF_get c1 (runCacheOps ops) (cacheWF_run ops)
    have hlt : ((getQuranClient c1 (runCacheOps ops)).1).id <
        ((getQuranClient c1 (runCacheOps ops)).2).nextId :=
      hwf _ hstate.1
    have hmiss := getQuranClient_miss c2 (getQuranClient c1 (runCacheOps ops)).2
      (Or.inr (by rw [hstate.2]; intro he; exact hkey (Option.some.inj he)))
    intro heq
    rw [hmiss.1] at heq
    have : ((getQuranClient c1 (runCacheOps ops)).2).nextId =
        ((getQuranClient c1 (runCacheOps ops)).1).id :=
      congrArg QuranClient.id heq
    rw [this] at hlt
    exact Nat.lt_irrefl _ hlt

/-- C1 counterexample to the claim as frozen: the configurations below
differ in their `environment` field (absent versus an explicit
`PRODUCTION`), yet the second `getQuranClient` call returns the identical
client instance rather than a distinct one, because the fingerprint
defaults an absent environment to `PRODUCTION`. -/
theorem client_cache_distinct_counterexample :
    (QuranConfig.mk "client-a" "secret-a" none none).environment ≠
        (QuranConfig.mk "client-a" "secret-a" none (some QuranEnvironment.production)).environment ∧
      (getQuranClient (QuranConfig.mk "client-a" "secret-a" none (some QuranEnvironment.production))
          (getQuranClient (QuranConfig.mk "client-a" "secret-a" none none) initialCacheState).2).1 =
        (getQuranClient (QuranConfig.mk "client-a" "secret-a" none none) initialCacheState).1 := by
  decide

/-- C1 witness: two configurations with different `clientId`s yield
distinct instances on successive calls from the initial state. -/
theorem client_cache_distinct_witness :
    (getQuranClient (QuranConfig.mk "client-b" "secret-a" none none)
        (getQuranClient (QuranConfig.mk "client-a" "secret-a" none none)
          (runCacheOps [])).2).1 ≠
      (getQuranClient (QuranConfig.mk "client-a" "secret-a" none none)
        (runCacheOps [])).1 :=
  (client_cache_idempotent_and_distinct []
    (QuranConfig.mk "client-a" "secret-a" none none)
    (QuranConfig.mk "client-b" "secret-a" none none)).2 (Or.inl (by decide))

/-- C3: when a cached entry exists, `clearClientCache` instructs the held
client to discard its cached access token and clears both the cached
client and the stored fingerprint; and any `getQuranClient` call right
after the invalidation — in particular one with a previously-cached
configuration — constructs a brand-new instance (allocated at the current
counter) and never returns the pre-invalidation instance. -/
theorem clear_cache_invalidates (ops : List CacheOp) (cfg : QuranConfig)
    (c : QuranClient) (hc : (runCacheOps ops).cachedClient = some c) :
    c.id ∈ (clearClientCache (runCacheOps ops)).droppedTokenIds ∧
      (clearClientCache (runCacheOps ops)).cachedClient = none ∧
      (clearClientCache (runCacheOps ops)).cachedConfig = none ∧
      (getQuranClient cfg (clearClientCache (runCacheOps ops))).1 ≠ c ∧
      ((getQuranClient cfg (clearClientCache (runCacheOps ops))).1).id =
        (runCacheOps ops).nextId := by
  have hclear : clearClientCache (runCacheOps ops) =
      { runCacheOps ops with
          droppedTokenIds := (runCacheOps ops).droppedTokenIds ++ [c.id],
          cachedClient := none, cachedConfig := none } := by
    unfold clearClientCache
    rw [hc]
  have hmiss := getQuranClient_miss cfg (clearClientCache (runCacheOps ops))
    (Or.inl (by rw [hclear]))
  have hlt : c.id < (runCacheOps ops).nextId := cacheWF_run ops c hc
  refine ⟨by rw [hclear]; simp, by rw [hclear], by rw [hclear], ?_, ?_⟩
  · intro heq
    have hid : ((getQuranClient cfg (clearClientCache (runCacheOps ops))).1).id = c.id :=
      congrArg QuranClient.id heq
    rw [hmiss.1] at hid
    have : (clearClientCache (runCacheOps ops)).nextId = c.id := hid
    rw [hclear] at this
    rw [this] at hlt
    exact Nat.lt_irrefl _ hlt
  · rw [hmiss.1, hclear]
    rfl

/-- C3 witness: a concrete get, clear, get sequence whose second get
yields a fresh instance while the first instance was told to drop its
token. -/
theorem clear_cache_invalidates_witness :
    (createQuranClient (QuranConfig.mk "client-a" "secret-a" none none) 0).id ∈
        (clearClientCache
          (runCacheOps [CacheOp.get (QuranConfig.mk "client-a" "secret-a" none none)])).droppedTokenIds ∧
      (clearClientCache
          (runCacheOps [CacheOp.get (QuranConfig.mk "client-a" "secret-a" none none)])).cachedClient = none ∧
      (clearClientCache
          (runCacheOps [CacheOp.get (QuranConfig.mk "client-a" "secret-a" none none)])).cachedConfig = none ∧
      (getQuranClient (QuranConfig.mk "client-a" "secret-a" none none)
          (clearClientCache
            (runCacheOps [CacheOp.get (QuranConfig.mk "client-a" "secret-a" none none)]))).1 ≠
        createQuranClient (QuranConfig.mk "client-a" "secret-a" none none) 0 ∧
      ((getQuranClient (QuranConfig.mk "client-a" "secret-a" none none)
          (clearClientCache
            (runCacheOps [CacheOp.get (QuranConfig.mk "client-a" "secret-a" none none)]))).1).id =
        (runCacheOps [CacheOp.get (QuranConfig.mk "client-a" "secret-a" none none)]).nextId :=
  clear_cache_invalidates [CacheOp.get (QuranConfig.mk "client-a" "secret-a" none none)]
    (QuranConfig.mk "client-a" "secret-a" none none)
    (createQuranClient (QuranConfig.mk "client-a" "secret-a" none none) 0) (by decide)

/-- C5: whenever the client's verse-lookup operation raises an error, the
`getVerse` handler returns (rather than throws) an envelope with
`isError = true` whose single text block is the error text, and that text
contains the attempted verse identifier, the failure category
(`error.status || "error"`) and the failure message
(`error.message || "Unknown error occurred"`). -/
theorem verse_error_envelope
    (findByKey : String → VerseOptions → Except ApiError VerseData)
    (params : GetVerseParams) (e : ApiError)
    (h : findByKey params.verseKey (verseRequestOptions params) = Except.error e) :
    (getVerse findByKey params).isError = true ∧
      (getVerse findByKey params).content = [verseErrorText params.verseKey e] ∧
      substrOf params.verseKey (verseErrorText params.verseKey e) ∧
      substrOf (jsOrStr e.status "error") (verseErrorText params.verseKey e) ∧
      substrOf (jsOrStr e.message "Unknown error occurred")
        (verseErrorText params.verseKey e) := by
  refine ⟨by simp [getVerse, h], by simp [getVerse, h], ?_, ?_, ?_⟩
  · show substrOf params.verseKey
      ("❌ **Error fetching verse " ++ params.verseKey ++ "**\n\nError Type: " ++
        jsOrStr e.status "error" ++ "\nMessage: " ++
        jsOrStr e.message "Unknown error occurred" ++
        "\n\nPlease check the verse key format (should be \x27chapter:verse\x27, e.g., \x272:255\x27) and try again.")
    exact substrOf_append_left _ _ _ (substrOf_append_left _ _ _
      (substrOf_append_left _ _ _ (substrOf_append_left _ _ _
        (substrOf_append_left _ _ _ (substrOf_self_right _ _)))))
  · show substrOf (jsOrStr e.status "error")
      ("❌ **Error fetching verse " ++ params.verseKey ++ "**\n\nError Type: " ++
        jsOrStr e.status "error" ++ "\nMessage: " ++
        jsOrStr e.message "Unknown error occurred" ++
        "\n\nPlease check the verse key format (should be \x27chapter:verse\x27, e.g., \x272:255\x27) and try again.")
    exact substrOf_append_left _ _ _ (substrOf_append_left _ _ _
      (substrOf_append_left _ _ _ (substrOf_self_right _ _)))
  · show substrOf (jsOrStr e.message "Unknown error occurred")
      ("❌ **Error fetching verse " ++ params.verseKey ++ "**\n\nError Type: " ++
        jsOrStr e.status "error" ++ "\nMessage: " ++
        jsOrStr e.message "Unknown error occurred" ++
        "\n\nPlease check the verse key format (should be \x27chapter:verse\x27, e.g., \x272:255\x27) and try again.")
    exact substrOf_append_left _ _ _ (substrOf_self_right _ _)

/-- A verse-lookup that always raises, for witnessing the error path. -/
def alwaysFailingLookup : String → VerseOptions → Except ApiError VerseData :=
  fun _ _ => Except.error ⟨some "Request failed", some "404"⟩

/-- C5 witness: the error envelope at a concrete failing lookup. -/
theorem verse_error_envelope_witness :
    (getVerse alwaysFailingLookup ⟨"2:255", none, false, false, some [171]⟩).isError = true ∧
      (getVerse alwaysFailingLookup ⟨"2:255", none, false, false, some [171]⟩).content =
        [verseErrorText "2:255" ⟨some "Request failed", some "404"⟩] ∧
      substrOf "2:255" (verseErrorText "2:255" ⟨some "Request failed", some "404"⟩) ∧
      substrOf (jsOrStr (some "404") "error")
        (verseErrorText "2:255" ⟨some "Request failed", some "404"⟩) ∧
      substrOf (jsOrStr (some "Request failed") "Unknown error occurred")
        (verseErrorText "2:255" ⟨some "Request failed", some "404"⟩) :=
  verse_error_envelope alwaysFailingLookup ⟨"2:255", none, false, false, some [171]⟩
    ⟨some "Request failed", some "404"⟩ rfl

/-- C9: when `includeTafsir` is false the options handed to the client's
verse-lookup carry no commentary identifiers, whatever `tafsirIds` was
supplied, and the whole handler behaves as if `tafsirIds` were absent. -/
theorem tafsir_ids_inert
    (findByKey : String → VerseOptions → Except ApiError VerseData)
    (params : GetVerseParams) (h : params.includeTafsir = false) :
    (verseRequestOptions params).tafsirs = none ∧
      verseRequestOptions params = verseRequestOptions { params with tafsirIds := none } ∧
      getVerse findByKey params = getVerse findByKey { params with tafsirIds := none } := by
  have hopts : verseRequestOptions params =
      verseRequestOptions { params with tafsirIds := none } := by
    simp [verseRequestOptions, h]
  refine ⟨by simp [verseRequestOptions, h], hopts, ?_⟩
  unfold getVerse
  rw [← hopts]

/-- C9 witness: at a concrete call with `includeTafsir = false` and
`tafsirIds = [171]`, no tafsir identifiers reach the lookup. -/
theorem tafsir_ids_inert_witness :
    (verseRequestOptions ⟨"2:255", none, false, false, some [171]⟩).tafsirs = none ∧
      verseRequestOptions ⟨"2:255", none, false, false, some [171]⟩ =
        verseRequestOptions { (⟨"2:255", none, false, false, some [171]⟩ : GetVerseParams) with
          tafsirIds := none } ∧
      getVerse alwaysFailingLookup ⟨"2:255", none, false, false, some [171]⟩ =
        getVerse alwaysFailingLookup
          { (⟨"2:255", none, false, false, some [171]⟩ : GetVerseParams) with
            tafsirIds := none } :=
  tafsir_ids_inert alwaysFailingLookup ⟨"2:255", none, false, false, some [171]⟩ rfl

/-! ### Grouping and sorting lemmas -/

theorem mem_dedupFirst (a : String) (l : List String) :
    a ∈ dedupFirst l ↔ a ∈ l := by
  induction l with
  | nil => simp [dedupFirst]
  | cons k ks ih =>
      by_cases hak : a = k
      · subst hak
        simp [dedupFirst]
      · simp [dedupFirst, List.mem_filter, hak, ih]

theorem sortKeys_sorted (l : List String) :
    List.Sorted (fun a b => a ≤ b) (sortKeys l) :=
  List.sorted_insertionSort _ l

theorem mem_sortKeys (a : String) (l : List String) :
    a ∈ sortKeys l ↔ a ∈ l :=
  (List.perm_insertionSort _ l).mem_iff

theorem groupKeys_sorted (ts : List TranslationResource) :
    List.Sorted (fun a b => a ≤ b) (groupKeys ts) :=
  sortKeys_sorted _

theorem mem_groupKeys (ts : List TranslationResource) (t : TranslationResource)
    (ht : t ∈ ts) : translationGroupKey t ∈ groupKeys ts :=
  (mem_sortKeys _ _).mpr ((mem_dedupFirst _ _).mpr
    (List.mem_map_of_mem translationGroupKey ht))

/-- C7: the no-filter catalog response is built from groups keyed by each
entry's own language name (falling back to `"unknown"` only when an entry
carries no usable language name), with the group keys in ascending
lexicographic order; the handler's response renders exactly these groups
after the header. -/
theorem catalog_grouping (ts : List TranslationResource)
    (t : TranslationResource) (l : String) (ht : t ∈ ts) :
    (getAvailableTranslations (Except.ok ts) ⟨none⟩).isError = false ∧
      List.Sorted (fun a b => a ≤ b) (groupKeys ts) ∧
      translationGroupKey t ∈ groupKeys ts ∧
      t ∈ groupMembers ts (translationGroupKey t) ∧
      (t.languageName = some l → l ≠ "" → translationGroupKey t = l) ∧
      (∀ (t0 : TranslationResource) (rest : List TranslationResource),
        ts = t0 :: rest →
          (getAvailableTranslations (Except.ok ts) ⟨none⟩).content =
            [translationsHeader none ts.length ++
              (renderGrouped ts ++ usageExample t0.id)]) := by
  refine ⟨rfl, groupKeys_sorted ts, mem_groupKeys ts t ht, ?_, ?_, ?_⟩
  · exact List.mem_filter.mpr ⟨ht, by simp⟩
  · intro h1 h2
    simp [translationGroupKey, jsOrStr, h1, h2]
  · intro t0 rest hts
    subst hts
    rfl

/-- Three concrete catalog entries used by the witnesses. -/
def trSahih : TranslationResource :=
  ⟨20, "Sahih International", some "Saheeh International", some "english"⟩

/-- Second concrete catalog entry. -/
def trJalandhari : TranslationResource :=
  ⟨234, "Jalandhari", some "Fatah Muhammad Jalandhari", some "Urdu"⟩

/-- Third concrete catalog entry. -/
def trHaleem : TranslationResource :=
  ⟨85, "Abdel Haleem", none, some "english"⟩

/-- A concrete catalog used by the witnesses. -/
def sampleCatalog : List TranslationResource :=
  [trSahih, trJalandhari, trHaleem]

/-- C7 witness: a concrete entry lands in the group of its own language
name and that key is among the sorted group keys. -/
theorem catalog_grouping_witness :
    translationGroupKey trSahih ∈ groupKeys sampleCatalog ∧
      trSahih ∈ groupMembers sampleCatalog (translationGroupKey trSahih) ∧
      translationGroupKey trSahih = "english" := by
  have h := catalog_grouping sampleCatalog trSahih "english" (by decide)
  exact ⟨h.2.2.1, h.2.2.2.1, h.2.2.2.2.1 rfl (by decide)⟩

/-- C8: with a (non-empty) language filter the catalog handler filters the
unfiltered upstream list locally by case-insensitive exact match on each
entry's language name, renders the matches as a flat list whose lines carry
id, display name and author when present, and appends one usage example
referencing the first match's id. -/
theorem catalog_filtering (ts : List TranslationResource) (l : String)
    (t0 : TranslationResource) (rest : List TranslationResource)
    (t : TranslationResource) (hl : l ≠ "")
    (hf : filterByLanguage ts l = t0 :: rest) :
    (getAvailableTranslations (Except.ok ts) ⟨some l⟩).isError = false ∧
      (getAvailableTranslations (Except.ok ts) ⟨some l⟩).content =
        [translationsHeader (some l) (t0 :: rest).length ++
          (renderFlat (t0 :: rest) ++ usageExample t0.id)] ∧
      (t ∈ filterByLanguage ts l ↔
        t ∈ ts ∧ t.languageName.map jsToLowerCase = some (jsToLowerCase l)) ∧
      (t ∈ filterByLanguage ts l →
        substrOf (flatEntryLine t)
          (translationsHeader (some l) (t0 :: rest).length ++
            (renderFlat (t0 :: rest) ++ usageExample t0.id))) ∧
      substrOf (usageExample t0.id)
        (translationsHeader (some l) (t0 :: rest).length ++
          (renderFlat (t0 :: rest) ++ usageExample t0.id)) ∧
      substrOf (toString t0.id) (usageExample t0.id) := by
  refine ⟨by simp [getAvailableTranslations, jsNonEmpty, hl, hf],
    by simp [getAvailableTranslations, jsNonEmpty, hl, hf], ?_, ?_, ?_, ?_⟩
  · unfold filterByLanguage
    rw [List.mem_filter]
    simp [translationLanguageMatches]
  · intro hmem
    rw [hf] at hmem
    apply substrOf_append_right
    apply substrOf_append_left
    show substrOf (flatEntryLine t)
      (concatStrings ((t0 :: rest).map flatEntryLine) ++ "\n")
    exact substrOf_append_left _ _ _ (substrOf_concat_of_mem flatEntryLine t _ hmem)
  · exact substrOf_append_right _ _ _ (substrOf_self_right _ _)
  · show substrOf (toString t0.id)
      ("\n**Usage Example:**\nTo fetch a verse with translation ID " ++
        toString t0.id ++ ", use:\n```\ngetVerse(\x7b verseKey: \"2:255\", translations: [" ++
        toString t0.id ++ "] \x7d)\n```\n")
    exact substrOf_append_left _ _ _ (substrOf_append_left _ _ _
      (substrOf_append_left _ _ _ (substrOf_self_right _ _)))

/-- C8 witness: filtering the sample catalog by `"English"` keeps exactly
the case-insensitively matching entries and renders their lines. -/
theorem catalog_filtering_witness :
    (getAvailableTranslations (Except.ok sampleCatalog) ⟨some "English"⟩).isError = false ∧
      (trHaleem ∈ filterByLanguage sampleCatalog "English" ↔
        trHaleem ∈ sampleCatalog ∧
          trHaleem.languageName.map jsToLowerCase = some (jsToLowerCase "English")) ∧
      substrOf (flatEntryLine trHaleem)
        (translationsHeader (some "English") (trSahih :: [trHaleem]).length ++
          (renderFlat (trSahih :: [trHaleem]) ++ usageExample trSahih.id)) ∧
      substrOf (toString trSahih.id) (usageExample trSahih.id) := by
  have h := catalog_filtering sampleCatalog "English" trSahih [trHaleem] trHaleem
    (by decide) (by decide)
  exact ⟨h.1, h.2.2.1, h.2.2.2.1 (by decide), h.2.2.2.2.2⟩

/-- C6: every successful handler result is an envelope with
`isError = false`; in particular a catalog call whose filter matches zero
entries still succeeds, saying no matches were found and suggesting
example language names. -/
theorem success_envelopes
    (findByKey : String → VerseOptions → Except ApiError VerseData)
    (params : GetVerseParams) (v : VerseData)
    (fetched : List TranslationResource)
    (p2 : GetAvailableTranslationsParams) (l : String) :
    (findByKey params.verseKey (verseRequestOptions params) = Except.ok v →
      (getVerse findByKey params).isError = false) ∧
      ((getAvailableTranslations (Except.ok fetched) p2).isError = false) ∧
      (l ≠ "" → filterByLanguage fetched l = [] →
        (getAvailableTranslations (Except.ok fetched) ⟨some l⟩).isError = false ∧
          (getAvailableTranslations (Except.ok fetched) ⟨some l⟩).content =
            [translationsHeader (some l) 0 ++ noMatchesText (some l)] ∧
          substrOf "No translations found" (noMatchesText (some l)) ∧
          substrOf (" for language: " ++ l) (noMatchesText (some l)) ∧
          substrOf "Try using common languages like: english, urdu, arabic, spanish, french, turkish, bengali, indonesian, russian, persian"
            (noMatchesText (some l))) := by
  refine ⟨?_, rfl, ?_⟩
  · intro h
    simp [getVerse, h]
  · intro hl hf
    refine ⟨rfl, by simp [getAvailableTranslations, jsNonEmpty, hl, hf], ?_, ?_, ?_⟩
    · show substrOf "No translations found"
        ("No translations found" ++ (" for language: " ++ l) ++
          ".\n\nTry using common languages like: english, urdu, arabic, spanish, french, turkish, bengali, indonesian, russian, persian")
      exact substrOf_append_left _ _ _ (substrOf_self_left _ _)
    · show substrOf (" for language: " ++ l)
        ("No translations found" ++ (" for language: " ++ l) ++
          ".\n\nTry using common languages like: english, urdu, arabic, spanish, french, turkish, bengali, indonesian, russian, persian")
      exact substrOf_append_left _ _ _ (substrOf_self_right _ _)
    · show substrOf "Try using common languages like: english, urdu, arabic, spanish, french, turkish, bengali, indonesian, russian, persian"
        ("No translations found" ++ (" for language: " ++ l) ++
          ".\n\nTry using common languages like: english, urdu, arabic, spanish, french, turkish, bengali, indonesian, russian, persian")
      exact substrOf_append_right _ _ _ (by decide)

/-- A concrete verse record for the success-path witnesses. -/
def sampleVerse : VerseData :=
  ⟨"2:255", "sample-uthmani-text", 2, 255, 42, 3, [], [], []⟩

/-- A verse-lookup that always succeeds, for witnessing the success path. -/
def alwaysSucceedingLookup : String → VerseOptions → Except ApiError VerseData :=
  fun _ _ => Except.ok sampleVerse

/-- C6 witness: both handlers succeed with `isError = false`, and a filter
matching nothing still yields a non-error envelope with the no-matches
text. -/
theorem success_envelopes_witness :
    (getVerse alwaysSucceedingLookup ⟨"2:255", none, false, false, none⟩).isError = false ∧
      (getAvailableTranslations (Except.ok sampleCatalog) ⟨some "klingon"⟩).isError = false ∧
      substrOf "No translations found" (noMatchesText (some "klingon")) ∧
      substrOf (" for language: " ++ "klingon") (noMatchesText (some "klingon")) := by
  have h := success_envelopes alwaysSucceedingLookup ⟨"2:255", none, false, false, none⟩
    sampleVerse sampleCatalog ⟨some "klingon"⟩ "klingon"
  have h3 := h.2.2 (by decide) (by decide)
  exact ⟨h.1 rfl, h.2.1, h3.2.2.1, h3.2.2.2.1⟩

/-- A catalog entry whose language name is present but empty: JavaScript
`t.languageName || "unknown"` treats it as falsy and groups it under the
fallback key. -/
def trMystery : TranslationResource :=
  ⟨7, "Mystery", none, some ""⟩

/-- C7 counterexample to the claim as frozen: this entry's own language
name is the empty string, yet the no-filter catalog response groups it
under the fallback key `"unknown"` — its group key is not equal to its own
language name, the empty string is not among the group keys, and the
rendered response carries the `Unknown` section. -/
theorem catalog_grouping_counterexample :
    trMystery.languageName = some "" ∧
      translationGroupKey trMystery ≠ "" ∧
      translationGroupKey trMystery = "unknown" ∧
      trMystery ∈ groupMembers [trMystery] "unknown" ∧
      trMystery ∉ groupMembers [trMystery] "" ∧
      "" ∉ groupKeys [trMystery] ∧
      "unknown" ∈ groupKeys [trMystery] ∧
      substrOf "**Unknown** (1 translations):"
        (concatStrings (getAvailableTranslations (Except.ok [trMystery]) ⟨none⟩).content) := by
  decide
